import Mathlib

/-!
Verification of the TLS transport layer of libmicrospdy against its
interface `src/src/microspdy/tls.h`.  The repository sources contain only
the interface header; the conforming engine behaviour (the body of
`tls.c`) is therefore modelled from the specification where marked.
Sentinel values, function names and signatures are taken from `tls.h`.
-/

/-- Return code from `enum SPDY_TLS_ERROR` in tls.h:
the connection was closed by the other party. -/
def SPDY_TLS_ERROR_CLOSED : Int := 0

/-- Return code from `enum SPDY_TLS_ERROR` in tls.h:
any kind of error occurred; the session has to be closed. -/
def SPDY_TLS_ERROR_ERROR : Int := -2

/-- Return code from `enum SPDY_TLS_ERROR` in tls.h:
the function had to return without processing any data; the whole
cycle of events has to be called again. -/
def SPDY_TLS_ERROR_AGAIN : Int := -3

/-- Modelled from the spec: `SPDY_YES` is declared in `microspdy.h`,
which is not among the repository sources; tls.h uses it as the
success value of `SPDYF_tls_init` and `SPDYF_tls_is_pending`. -/
def SPDY_YES : Int := 1

/-- Modelled from the spec: `SPDY_NO` is declared in `microspdy.h`,
which is not among the repository sources; tls.h uses it as the
failure / negative value. -/
def SPDY_NO : Int := 0

/-- Largest value representable in the C `int` return channel that
`SPDYF_tls_recv` and `SPDYF_tls_send` declare in tls.h (32-bit int). -/
def INT_MAX : Nat := 2147483647

/-- A `size_t` argument reinterpreted through a 32-bit C `int`:
the low-order 32 bits read as a two's-complement signed value. -/
def sizeTruncatedToInt (sz : Nat) : Int :=
  if sz % 4294967296 < 2147483648 then ((sz % 4294967296 : Nat) : Int)
  else ((sz % 4294967296 : Nat) : Int) - 4294967296

/-- Modelled from the spec: the per-connection engine state behind
`SPDYF_TLS_SESSION_CONTEXT` (the implementation `tls.c` is not among
the repository sources).  `fatal` is the unrecoverable-failure state,
`peerClosed` records a received close from the other party,
`handshakeDone` is the `Established` handshake phase, `recvRecords`
holds the decrypted application-byte records already received from the
socket but not yet delivered to the caller (the record layer frames the
stream into discrete units), `sendWindow` is how many bytes the
underlying socket can currently accept without blocking, and
`sentStream` is the decrypted byte stream a conformant peer observes. -/
structure SPDY_Session where
  fatal : Bool
  peerClosed : Bool
  handshakeDone : Bool
  recvRecords : List (List Nat)
  sendWindow : Nat
  sentStream : List Nat
deriving Repr, DecidableEq

/-- Modelled from the spec: the daemon configuration fields that
`SPDYF_tls_init` inspects (certificate file loads, key file loads, and
whether the two match); `struct SPDY_Daemon` is declared outside the
repository sources. -/
structure SPDY_Daemon where
  certLoads : Bool
  keyLoads : Bool
  certKeyMatch : Bool
deriving Repr, DecidableEq

/-- Modelled from the spec: `SPDYF_tls_recv` of tls.h (its body is in
`tls.c`, not among the repository sources).  Reads available data into
the caller's buffer of `size` bytes.  Returns the C `int` return value,
the successor session state, and the bytes written into the buffer.
A fatal engine state yields `SPDY_TLS_ERROR_ERROR`; otherwise a
buffered decrypted record is delivered, at most one record and at most
`size` bytes per call, capped by the `int` return channel; with nothing
buffered, a received peer close yields `SPDY_TLS_ERROR_CLOSED`, and a
pending handshake step, an empty socket or a signal interruption yield
`SPDY_TLS_ERROR_AGAIN` with no data moved. -/
def SPDYF_tls_recv (session : SPDY_Session) (size : Nat) :
    Int × SPDY_Session × List Nat :=
  if session.fatal then
    (SPDY_TLS_ERROR_ERROR, session, [])
  else
    match session.recvRecords with
    | [] =>
        if session.peerClosed then (SPDY_TLS_ERROR_CLOSED, session, [])
        else (SPDY_TLS_ERROR_AGAIN, session, [])
    | r :: rest =>
        let n := min (min size r.length) INT_MAX
        if n = 0 then (SPDY_TLS_ERROR_AGAIN, session, [])
        else
          ((n : Int),
           { session with
              recvRecords := if n < r.length then r.drop n :: rest else rest },
           r.take n)

/-- Modelled from the spec: `SPDYF_tls_send` of tls.h (its body is in
`tls.c`, not among the repository sources).  Writes bytes taken from
the front of the caller's buffer to the TLS socket.  Returns the C
`int` return value and the successor session state; the bytes a
conformant peer observes are appended to `sentStream`.  A fatal state
yields `SPDY_TLS_ERROR_ERROR`; a received peer close yields
`SPDY_TLS_ERROR_CLOSED`; an unfinished handshake or a full socket
yields `SPDY_TLS_ERROR_AGAIN` with nothing consumed; otherwise the
first `n` bytes are consumed, `n` at most `size`, at most the socket
window, and capped by the `int` return channel. -/
def SPDYF_tls_send (session : SPDY_Session) (buffer : List Nat) (size : Nat) :
    Int × SPDY_Session :=
  if session.fatal then (SPDY_TLS_ERROR_ERROR, session)
  else if session.peerClosed then (SPDY_TLS_ERROR_CLOSED, session)
  else if ¬ session.handshakeDone then (SPDY_TLS_ERROR_AGAIN, session)
  else
    let n := min (min size session.sendWindow) INT_MAX
    if n = 0 then (SPDY_TLS_ERROR_AGAIN, session)
    else
      ((n : Int),
       { session with
          sendWindow := session.sendWindow - n,
          sentStream := session.sentStream ++ buffer.take n })

/-- Modelled from the spec: `SPDYF_tls_is_pending` of tls.h (its body
is in `tls.c`, not among the repository sources).  Checks if there is
data staying in the buffers of the underlying system that waits to be
read; returns `SPDY_YES` if data is pending and `SPDY_NO` otherwise. -/
def SPDYF_tls_is_pending (session : SPDY_Session) : Int :=
  if session.recvRecords = [] then SPDY_NO else SPDY_YES

/-- Modelled from the spec: `SPDYF_tls_init` of tls.h (its body is in
`tls.c`, not among the repository sources).  Builds the daemon TLS
context from the daemon's certificate and key file; returns `SPDY_YES`
on success or `SPDY_NO` when the certificate or key cannot be loaded
or the two are mismatched. -/
def SPDYF_tls_init (daemon : SPDY_Daemon) : Int :=
  if daemon.certLoads && daemon.keyLoads && daemon.certKeyMatch then SPDY_YES
  else SPDY_NO

/-- Modelled from the spec: `SPDYF_tls_global_init` of tls.h (its body
is in `tls.c`, not among the repository sources).  Process-wide
initialization; the C signature is `void SPDYF_tls_global_init()`, so
no error code can reach the caller.  The argument is the environment
condition (entropy / library setup available), not a caller input;
`none` models fatal process termination, `some ()` a normal return
carrying no information. -/
def SPDYF_tls_global_init (entropyOk : Bool) : Option Unit :=
  if entropyOk then some () else none

/-- An interaction step of the event loop with one session on the send
side: either a call to `SPDYF_tls_send`, or a readiness notification
after which the socket can accept `k` more bytes. -/
inductive SendEvent where
  | call (buffer : List Nat) (size : Nat)
  | ready (k : Nat)
deriving Repr

/-- Runs a list of send-side events against a session; returns the
final session and, for each call that reported `n > 0`, the `n`-byte
front of its buffer, in call order. -/
def runSends (session : SPDY_Session) :
    List SendEvent → SPDY_Session × List (List Nat)
  | [] => (session, [])
  | SendEvent.call buffer size :: evs =>
      let out := SPDYF_tls_send session buffer size
      let res := runSends out.2 evs
      if 0 < out.1 then (res.1, buffer.take out.1.toNat :: res.2)
      else (res.1, res.2)
  | SendEvent.ready k :: evs =>
      runSends { session with sendWindow := session.sendWindow + k } evs

/-- Concrete session on which `SPDYF_tls_recv` returns `SPDY_TLS_ERROR_AGAIN`:
established, nothing buffered, peer still open, send window empty. -/
def sessionAgainExample : SPDY_Session :=
  ⟨false, false, true, [], 0, []⟩

/-- Concrete session holding two one-byte decrypted records. -/
def sessionDataExample : SPDY_Session :=
  ⟨false, false, true, [[7], [8]], 5, [10]⟩

/-- Concrete session whose peer has closed the connection. -/
def sessionClosedExample : SPDY_Session :=
  ⟨false, true, true, [], 5, []⟩

/-- Case analysis of `SPDYF_tls_recv`: the call returns `ERROR`, `CLOSED`
(only with the peer-closed flag set) or `AGAIN`, each with no bytes
delivered and the session unchanged, or a positive count bounded by the
`int` channel and by `size`, delivering exactly that many bytes. -/
lemma recv_spec (s : SPDY_Session) (size : Nat) :
    ((SPDYF_tls_recv s size).1 = SPDY_TLS_ERROR_ERROR ∧
      (SPDYF_tls_recv s size).2.1 = s ∧ (SPDYF_tls_recv s size).2.2 = []) ∨
    ((SPDYF_tls_recv s size).1 = SPDY_TLS_ERROR_CLOSED ∧ s.peerClosed = true ∧
      (SPDYF_tls_recv s size).2.1 = s ∧ (SPDYF_tls_recv s size).2.2 = []) ∨
    ((SPDYF_tls_recv s size).1 = SPDY_TLS_ERROR_AGAIN ∧
      (SPDYF_tls_recv s size).2.1 = s ∧ (SPDYF_tls_recv s size).2.2 = []) ∨
    (0 < (SPDYF_tls_recv s size).1 ∧
      (SPDYF_tls_recv s size).1 ≤ (INT_MAX : Int) ∧
      (SPDYF_tls_recv s size).1.toNat ≤ size ∧
      (SPDYF_tls_recv s size).2.2.length = (SPDYF_tls_recv s size).1.toNat) := by
  by_cases hf : s.fatal = true
  · exact Or.inl (by simp [SPDYF_tls_recv, hf])
  · cases hr : s.recvRecords with
    | nil =>
      by_cases hp : s.peerClosed = true
      · exact Or.inr (Or.inl (by simp [SPDYF_tls_recv, hf, hr, hp]))
      · exact Or.inr (Or.inr (Or.inl (by simp [SPDYF_tls_recv, hf, hr, hp])))
    | cons r rest =>
      by_cases hn : min (min size r.length) INT_MAX = 0
      · exact Or.inr (Or.inr (Or.inl (by simp [SPDYF_tls_recv, hf, hr, hn])))
      · refine Or.inr (Or.inr (Or.inr ?_))
        have h0 : 0 < min (min size r.length) INT_MAX := Nat.pos_of_ne_zero hn
        have h1 : min (min size r.length) INT_MAX ≤ size :=
          le_trans (min_le_left _ _) (min_le_left _ _)
        have h2 : min (min size r.length) INT_MAX ≤ INT_MAX := min_le_right _ _
        have h3 : min (min size r.length) INT_MAX ≤ r.length :=
          le_trans (min_le_left _ _) (min_le_right _ _)
        simp only [SPDYF_tls_recv, if_neg hf, hr, if_neg hn, Int.toNat_natCast,
          List.length_take]
        exact ⟨by exact_mod_cast h0, by exact_mod_cast h2, h1, min_eq_left h3⟩

/-- Case analysis of `SPDYF_tls_send`: the call returns `ERROR`, `CLOSED`
(only with the peer-closed flag set) or `AGAIN`, each leaving the session
unchanged, or a positive count bounded by the `int` channel and by `size`,
appending exactly that front of the buffer to the stream the peer sees. -/
lemma send_spec (s : SPDY_Session) (buffer : List Nat) (size : Nat) :
    ((SPDYF_tls_send s buffer size).1 = SPDY_TLS_ERROR_ERROR ∧
      (SPDYF_tls_send s buffer size).2 = s) ∨
    ((SPDYF_tls_send s buffer size).1 = SPDY_TLS_ERROR_CLOSED ∧
      s.peerClosed = true ∧ (SPDYF_tls_send s buffer size).2 = s) ∨
    ((SPDYF_tls_send s buffer size).1 = SPDY_TLS_ERROR_AGAIN ∧
      (SPDYF_tls_send s buffer size).2 = s) ∨
    (0 < (SPDYF_tls_send s buffer size).1 ∧
      (SPDYF_tls_send s buffer size).1 ≤ (INT_MAX : Int) ∧
      (SPDYF_tls_send s buffer size).1.toNat ≤ size ∧
      (SPDYF_tls_send s buffer size).2.sentStream =
        s.sentStream ++ buffer.take (SPDYF_tls_send s buffer size).1.toNat) := by
  by_cases hf : s.fatal = true
  · exact Or.inl (by simp [SPDYF_tls_send, hf])
  · by_cases hp : s.peerClosed = true
    · exact Or.inr (Or.inl (by simp [SPDYF_tls_send, hf, hp]))
    · by_cases hh : s.handshakeDone = true
      · by_cases hn : min (min size s.sendWindow) INT_MAX = 0
        · exact Or.inr (Or.inr (Or.inl (by simp [SPDYF_tls_send, hf, hp, hh, hn])))
        · refine Or.inr (Or.inr (Or.inr ?_))
          have h0 : 0 < min (min size s.sendWindow) INT_MAX :=
            Nat.pos_of_ne_zero hn
          have h1 : min (min size s.sendWindow) INT_MAX ≤ size :=
            le_trans (min_le_left _ _) (min_le_left _ _)
          have h2 : min (min size s.sendWindow) INT_MAX ≤ INT_MAX :=
            min_le_right _ _
          simp only [SPDYF_tls_send, if_neg hf, if_neg hp,
            if_neg (not_not_intro hh), if_neg hn, Int.toNat_natCast]
          exact ⟨by exact_mod_cast h0, by exact_mod_cast h2, h1, trivial⟩
      · exact Or.inr (Or.inr (Or.inl (by simp [SPDYF_tls_send, hf, hp, hh])))

/-- C1: Every call to `SPDYF_tls_recv` or `SPDYF_tls_send` returns exactly
one of the four defined outcomes: a positive byte count `n > 0`,
`SPDY_TLS_ERROR_CLOSED` (0, peer closed), `SPDY_TLS_ERROR_AGAIN` (-3), or
`SPDY_TLS_ERROR_ERROR` (-2); no other return value occurs. -/
theorem tls_io_four_outcomes (s : SPDY_Session) (buffer : List Nat)
    (size : Nat) :
    (0 < (SPDYF_tls_recv s size).1 ∨
      (SPDYF_tls_recv s size).1 = SPDY_TLS_ERROR_CLOSED ∨
      (SPDYF_tls_recv s size).1 = SPDY_TLS_ERROR_AGAIN ∨
      (SPDYF_tls_recv s size).1 = SPDY_TLS_ERROR_ERROR) ∧
    (0 < (SPDYF_tls_send s buffer size).1 ∨
      (SPDYF_tls_send s buffer size).1 = SPDY_TLS_ERROR_CLOSED ∨
      (SPDYF_tls_send s buffer size).1 = SPDY_TLS_ERROR_AGAIN ∨
      (SPDYF_tls_send s buffer size).1 = SPDY_TLS_ERROR_ERROR) := by
  constructor
  · rcases recv_spec s size with h | h | h | h
    · exact Or.inr (Or.inr (Or.inr h.1))
    · exact Or.inr (Or.inl h.1)
    · exact Or.inr (Or.inr (Or.inl h.1))
    · exact Or.inl h.1
  · rcases send_spec s buffer size with h | h | h | h
    · exact Or.inr (Or.inr (Or.inr h.1))
    · exact Or.inr (Or.inl h.1)
    · exact Or.inr (Or.inr (Or.inl h.1))
    · exact Or.inl h.1

/-- C2: For a single call to `SPDYF_tls_recv` or `SPDYF_tls_send`, the
`AGAIN` outcome and a nonzero transfer are mutually exclusive: an
`SPDY_TLS_ERROR_AGAIN` return moves no bytes (and leaves the session as
it was), and a call that moved bytes does not return `AGAIN`. -/
theorem tls_again_excludes_transfer (s : SPDY_Session) (buffer : List Nat)
    (size : Nat) :
    ((SPDYF_tls_recv s size).1 = SPDY_TLS_ERROR_AGAIN →
      (SPDYF_tls_recv s size).2.2 = [] ∧ (SPDYF_tls_recv s size).2.1 = s) ∧
    ((SPDYF_tls_recv s size).2.2 ≠ [] →
      (SPDYF_tls_recv s size).1 ≠ SPDY_TLS_ERROR_AGAIN) ∧
    ((SPDYF_tls_send s buffer size).1 = SPDY_TLS_ERROR_AGAIN →
      (SPDYF_tls_send s buffer size).2 = s) ∧
    ((SPDYF_tls_send s buffer size).2.sentStream ≠ s.sentStream →
      (SPDYF_tls_send s buffer size).1 ≠ SPDY_TLS_ERROR_AGAIN) := by
  have keyRecv : (SPDYF_tls_recv s size).1 = SPDY_TLS_ERROR_AGAIN →
      (SPDYF_tls_recv s size).2.2 = [] ∧ (SPDYF_tls_recv s size).2.1 = s := by
    intro ha
    rcases recv_spec s size with h | h | h | h
    · rw [h.1] at ha; exact absurd ha (by decide)
    · rw [h.1] at ha; exact absurd ha (by decide)
    · exact ⟨h.2.2, h.2.1⟩
    · have hpos := h.1; rw [ha] at hpos; exact absurd hpos (by decide)
  have keySend : (SPDYF_tls_send s buffer size).1 = SPDY_TLS_ERROR_AGAIN →
      (SPDYF_tls_send s buffer size).2 = s := by
    intro ha
    rcases send_spec s buffer size with h | h | h | h
    · rw [h.1] at ha; exact absurd ha (by decide)
    · rw [h.1] at ha; exact absurd ha (by decide)
    · exact h.2
    · have hpos := h.1; rw [ha] at hpos; exact absurd hpos (by decide)
  refine ⟨keyRecv, ?_, keySend, ?_⟩
  · intro hne ha
    exact hne (keyRecv ha).1
  · intro hne ha
    exact hne (congrArg SPDY_Session.sentStream (keySend ha))

/-- C3: A call to `SPDYF_tls_recv` that returns a positive count `n`
writes exactly `n` bytes into the buffer with `n ≤ size`; and partial
reads are permitted: for any `size ≥ 2` there is a session on which the
call returns fewer than `size` bytes while more data remains buffered. -/
theorem tls_recv_partial_reads (s : SPDY_Session) (size : Nat) :
    (0 < (SPDYF_tls_recv s size).1 →
      (SPDYF_tls_recv s size).1.toNat ≤ size ∧
      (SPDYF_tls_recv s size).2.2.length = (SPDYF_tls_recv s size).1.toNat ∧
      (SPDYF_tls_recv s size).2.2.length ≤ size) ∧
    (2 ≤ size →
      ∃ t : SPDY_Session, 0 < (SPDYF_tls_recv t size).1 ∧
        (SPDYF_tls_recv t size).1 < (size : Int) ∧
        (SPDYF_tls_recv t size).2.1.recvRecords ≠ []) := by
  constructor
  · intro hpos
    rcases recv_spec s size with h | h | h | h
    · rw [h.1] at hpos; exact absurd hpos (by decide)
    · rw [h.1] at hpos; exact absurd hpos (by decide)
    · rw [h.1] at hpos; exact absurd hpos (by decide)
    · exact ⟨h.2.2.1, h.2.2.2, by rw [h.2.2.2]; exact h.2.2.1⟩
  · intro hsize
    have hIM : INT_MAX = 2147483647 := rfl
    have hmin : min (min size 1) INT_MAX = 1 := by rw [hIM]; omega
    have hrecv : SPDYF_tls_recv ⟨false, false, true, [[7], [8]], 0, []⟩ size
        = (1, ⟨false, false, true, [[8]], 0, []⟩, [7]) := by
      simp [SPDYF_tls_recv, hmin]
    refine ⟨⟨false, false, true, [[7], [8]], 0, []⟩, ?_, ?_, ?_⟩
    · rw [hrecv]; decide
    · rw [hrecv]; push_cast; omega
    · rw [hrecv]; simp

/-- C4: A call to `SPDYF_tls_send` that returns a positive count `n` has
`n ≤ size` and consumed exactly the first `n` bytes of the buffer (the
stream the peer sees grows by exactly that front); a call that reports
no positive count consumes nothing and leaves the session unchanged. -/
theorem tls_send_partial_writes (s : SPDY_Session) (buffer : List Nat)
    (size : Nat) :
    (0 < (SPDYF_tls_send s buffer size).1 →
      (SPDYF_tls_send s buffer size).1.toNat ≤ size ∧
      (SPDYF_tls_send s buffer size).2.sentStream =
        s.sentStream ++ buffer.take (SPDYF_tls_send s buffer size).1.toNat) ∧
    ((SPDYF_tls_send s buffer size).1 ≤ 0 →
      (SPDYF_tls_send s buffer size).2 = s) := by
  constructor
  · intro hpos
    rcases send_spec s buffer size with h | h | h | h
    · rw [h.1] at hpos; exact absurd hpos (by decide)
    · rw [h.1] at hpos; exact absurd hpos (by decide)
    · rw [h.1] at hpos; exact absurd hpos (by decide)
    · exact ⟨h.2.2.1, h.2.2.2⟩
  · intro hle
    rcases send_spec s buffer size with h | h | h | h
    · exact h.2
    · exact h.2.2
    · exact h.2
    · exact absurd h.1 (not_lt.mpr hle)

/-- C5: A return value of 0 (`SPDY_TLS_ERROR_CLOSED`) from
`SPDYF_tls_recv` or `SPDYF_tls_send` occurs only when the peer has
closed the connection; it is never a zero-byte transfer on a still-open
connection. -/
theorem tls_zero_means_peer_closed (s : SPDY_Session) (buffer : List Nat)
    (size : Nat) :
    SPDY_TLS_ERROR_CLOSED = 0 ∧
    ((SPDYF_tls_recv s size).1 = 0 → s.peerClosed = true) ∧
    ((SPDYF_tls_send s buffer size).1 = 0 → s.peerClosed = true) := by
  refine ⟨rfl, ?_, ?_⟩
  · intro h0
    rcases recv_spec s size with h | h | h | h
    · rw [h.1] at h0; exact absurd h0 (by decide)
    · exact h.2.1
    · rw [h.1] at h0; exact absurd h0 (by decide)
    · have hpos := h.1; rw [h0] at hpos; exact absurd hpos (by decide)
  · intro h0
    rcases send_spec s buffer size with h | h | h | h
    · rw [h.1] at h0; exact absurd h0 (by decide)
    · exact h.2.1
    · rw [h.1] at h0; exact absurd h0 (by decide)
    · have hpos := h.1; rw [h0] at hpos; exact absurd hpos (by decide)

/-- A send call reporting a positive count appends exactly the reported
front of the buffer to the stream the peer observes. -/
lemma send_pos_sentStream (s : SPDY_Session) (buffer : List Nat) (size : Nat)
    (hpos : 0 < (SPDYF_tls_send s buffer size).1) :
    (SPDYF_tls_send s buffer size).2.sentStream =
      s.sentStream ++ buffer.take (SPDYF_tls_send s buffer size).1.toNat := by
  rcases send_spec s buffer size with h | h | h | h
  · rw [h.1] at hpos; exact absurd hpos (by decide)
  · rw [h.1] at hpos; exact absurd hpos (by decide)
  · rw [h.1] at hpos; exact absurd hpos (by decide)
  · exact h.2.2.2

/-- A send call reporting no positive count leaves the session unchanged. -/
lemma send_nonpos_state (s : SPDY_Session) (buffer : List Nat) (size : Nat)
    (hle : ¬ 0 < (SPDYF_tls_send s buffer size).1) :
    (SPDYF_tls_send s buffer size).2 = s := by
  rcases send_spec s buffer size with h | h | h | h
  · exact h.2
  · exact h.2.2
  · exact h.2
  · exact absurd h.1 hle

/-- C6: Over any sequence of send-side events on one session, the
decrypted byte stream a conformant peer observes is exactly the prior
stream followed by the in-order concatenation of the `n`-byte buffer
fronts reported by the calls that returned `n > 0`: nothing reported as
sent is duplicated, dropped or reordered. -/
theorem tls_send_stream_concat (s : SPDY_Session) (evs : List SendEvent) :
    (runSends s evs).1.sentStream =
      s.sentStream ++ ((runSends s evs).2).flatten := by
  induction evs generalizing s with
  | nil => simp [runSends]
  | cons e evs ih =>
    cases e with
    | ready k =>
      have h := ih { s with sendWindow := s.sendWindow + k }
      simpa [runSends] using h
    | call buffer size =>
      by_cases hpos : 0 < (SPDYF_tls_send s buffer size).1
      · have h1 := send_pos_sentStream s buffer size hpos
        have h2 := ih (SPDYF_tls_send s buffer size).2
        simp only [runSends, if_pos hpos]
        rw [h2, h1]
        simp
      · have h2 := ih (SPDYF_tls_send s buffer size).2
        have h3 := send_nonpos_state s buffer size hpos
        simp only [runSends, if_neg hpos]
        rw [h2, h3]

/-- C7: `SPDYF_tls_init` returns exactly one of `SPDY_YES` or `SPDY_NO`,
the two are distinct, and it returns `SPDY_NO` precisely when the
daemon's certificate or key cannot be loaded or the two are
mismatched. -/
theorem tls_init_success_iff (d : SPDY_Daemon) :
    (SPDYF_tls_init d = SPDY_YES ∨ SPDYF_tls_init d = SPDY_NO) ∧
    SPDY_YES ≠ SPDY_NO ∧
    (SPDYF_tls_init d = SPDY_NO ↔
      (d.certLoads = false ∨ d.keyLoads = false ∨ d.certKeyMatch = false)) := by
  rcases d with ⟨c, k, m⟩
  cases c <;> cases k <;> cases m <;>
    simp [SPDYF_tls_init, SPDY_YES, SPDY_NO]

/-- C8: `SPDYF_tls_global_init` surfaces no error code to its caller:
when the environment provides entropy and setup the call returns with
the information-free unit value, and otherwise the process terminates
fatally (no return reaches the caller at all). -/
theorem tls_global_init_fatal_or_silent (entropyOk : Bool) :
    (entropyOk = true ∧ SPDYF_tls_global_init entropyOk = some ()) ∨
    (entropyOk = false ∧ SPDYF_tls_global_init entropyOk = none) := by
  cases entropyOk
  · exact Or.inr ⟨rfl, rfl⟩
  · exact Or.inl ⟨rfl, rfl⟩

/-- C9: When `SPDYF_tls_is_pending` reports `SPDY_YES`, the next
`SPDYF_tls_recv` on that session (no new readiness notification, any
positive buffer size, records holding at least one byte as delivered by
the record layer) returns a positive count or a terminal outcome, never
`SPDY_TLS_ERROR_AGAIN`. -/
theorem tls_pending_recv_no_noop (s : SPDY_Session) (size : Nat)
    (hpend : SPDYF_tls_is_pending s = SPDY_YES)
    (hsize : 0 < size)
    (hwf : ∀ r ∈ s.recvRecords, r ≠ []) :
    (0 < (SPDYF_tls_recv s size).1 ∨
      (SPDYF_tls_recv s size).1 = SPDY_TLS_ERROR_CLOSED ∨
      (SPDYF_tls_recv s size).1 = SPDY_TLS_ERROR_ERROR) ∧
    (SPDYF_tls_recv s size).1 ≠ SPDY_TLS_ERROR_AGAIN := by
  have hrec : s.recvRecords ≠ [] := by
    intro hnil
    rw [SPDYF_tls_is_pending, if_pos hnil] at hpend
    exact absurd hpend (by decide)
  have key : 0 < (SPDYF_tls_recv s size).1 ∨
      (SPDYF_tls_recv s size).1 = SPDY_TLS_ERROR_CLOSED ∨
      (SPDYF_tls_recv s size).1 = SPDY_TLS_ERROR_ERROR := by
    by_cases hf : s.fatal = true
    · exact Or.inr (Or.inr (by simp [SPDYF_tls_recv, hf]))
    · cases hr : s.recvRecords with
      | nil => exact absurd hr hrec
      | cons r rest =>
        have hrne : r ≠ [] :=
          hwf r (by rw [hr]; exact List.mem_cons_self r rest)
        have hlen : 0 < r.length := List.length_pos.mpr hrne
        have hn : min (min size r.length) INT_MAX ≠ 0 := by
          have hIM : INT_MAX = 2147483647 := rfl
          rw [hIM]; omega
        refine Or.inl ?_
        simp only [SPDYF_tls_recv, if_neg hf, hr, if_neg hn]
        exact_mod_cast Nat.pos_of_ne_zero hn
  refine ⟨key, ?_⟩
  rcases key with h | h | h
  · intro ha; rw [ha] at h; exact absurd h (by decide)
  · intro ha; rw [h] at ha; exact absurd ha (by decide)
  · intro ha; rw [h] at ha; exact absurd ha (by decide)

/-- C10: Because the return channel of `SPDYF_tls_recv` and
`SPDYF_tls_send` is a C `int` while `size` is a `size_t`, one call
reports at most `INT_MAX` bytes: with `size > INT_MAX` the return is
below `size`, so such a buffer is never reported fully transferred in
one call, and a `size` whose low-order `int` bits land on a sentinel is
never echoed back as a count. -/
theorem tls_int_return_caps_size (s : SPDY_Session) (buffer : List Nat)
    (size : Nat) (hbig : INT_MAX < size) :
    (SPDYF_tls_recv s size).1 ≤ (INT_MAX : Int) ∧
    (SPDYF_tls_recv s size).1 < (size : Int) ∧
    (SPDYF_tls_send s buffer size).1 ≤ (INT_MAX : Int) ∧
    (SPDYF_tls_send s buffer size).1 < (size : Int) ∧
    ((sizeTruncatedToInt size = SPDY_TLS_ERROR_CLOSED ∨
        sizeTruncatedToInt size = SPDY_TLS_ERROR_ERROR ∨
        sizeTruncatedToInt size = SPDY_TLS_ERROR_AGAIN) →
      (0 < (SPDYF_tls_recv s size).1 →
        (SPDYF_tls_recv s size).1 ≠ sizeTruncatedToInt size) ∧
      (0 < (SPDYF_tls_send s buffer size).1 →
        (SPDYF_tls_send s buffer size).1 ≠ sizeTruncatedToInt size)) := by
  have hcast : (INT_MAX : Int) < (size : Int) := by exact_mod_cast hbig
  have hrle : (SPDYF_tls_recv s size).1 ≤ (INT_MAX : Int) := by
    rcases recv_spec s size with h | h | h | h
    · rw [h.1]; decide
    · rw [h.1]; decide
    · rw [h.1]; decide
    · exact h.2.1
  have hsle : (SPDYF_tls_send s buffer size).1 ≤ (INT_MAX : Int) := by
    rcases send_spec s buffer size with h | h | h | h
    · rw [h.1]; decide
    · rw [h.1]; decide
    · rw [h.1]; decide
    · exact h.2.1
  refine ⟨hrle, lt_of_le_of_lt hrle hcast, hsle, lt_of_le_of_lt hsle hcast, ?_⟩
  intro hcol
  have htr : sizeTruncatedToInt size ≤ 0 := by
    rcases hcol with h | h | h <;> rw [h] <;> decide
  constructor
  · intro hp he; rw [he] at hp; exact absurd hp (not_lt.mpr htr)
  · intro hp he; rw [he] at hp; exact absurd hp (not_lt.mpr htr)

/-- Witness for C2 at a concrete session on which the recv call returns
`SPDY_TLS_ERROR_AGAIN`: nothing is delivered and nothing changes. -/
theorem tls_again_excludes_transfer_witness :
    (SPDYF_tls_recv sessionAgainExample 4).2.2 = [] ∧
    (SPDYF_tls_recv sessionAgainExample 4).2.1 = sessionAgainExample :=
  (tls_again_excludes_transfer sessionAgainExample [] 4).1 (by decide)

/-- Witness for C3 at a concrete session delivering one byte of a
four-byte request. -/
theorem tls_recv_partial_reads_witness :
    (SPDYF_tls_recv sessionDataExample 4).1.toNat ≤ 4 ∧
    (SPDYF_tls_recv sessionDataExample 4).2.2.length =
      (SPDYF_tls_recv sessionDataExample 4).1.toNat ∧
    (SPDYF_tls_recv sessionDataExample 4).2.2.length ≤ 4 :=
  (tls_recv_partial_reads sessionDataExample 4).1 (by decide)

/-- Witness for C4 at a concrete session consuming a three-byte buffer. -/
theorem tls_send_partial_writes_witness :
    (SPDYF_tls_send sessionDataExample [1, 2, 3] 3).1.toNat ≤ 3 ∧
    (SPDYF_tls_send sessionDataExample [1, 2, 3] 3).2.sentStream =
      sessionDataExample.sentStream ++
        [1, 2, 3].take (SPDYF_tls_send sessionDataExample [1, 2, 3] 3).1.toNat :=
  (tls_send_partial_writes sessionDataExample [1, 2, 3] 3).1 (by decide)

/-- Witness for C5 at a concrete session whose recv call returns 0:
its peer-closed flag is set. -/
theorem tls_zero_means_peer_closed_witness :
    sessionClosedExample.peerClosed = true :=
  (tls_zero_means_peer_closed sessionClosedExample [] 4).2.1 (by decide)

/-- Witness for C9 at a concrete session with one buffered record. -/
theorem tls_pending_recv_no_noop_witness :
    (0 < (SPDYF_tls_recv sessionDataExample 4).1 ∨
      (SPDYF_tls_recv sessionDataExample 4).1 = SPDY_TLS_ERROR_CLOSED ∨
      (SPDYF_tls_recv sessionDataExample 4).1 = SPDY_TLS_ERROR_ERROR) ∧
    (SPDYF_tls_recv sessionDataExample 4).1 ≠ SPDY_TLS_ERROR_AGAIN :=
  tls_pending_recv_no_noop sessionDataExample 4 (by decide) (by decide)
    (by decide)

/-- Witness for C10 at `size = 2^32`, whose low-order `int` bits read as
the sentinel 0. -/
theorem tls_int_return_caps_size_witness :
    (SPDYF_tls_recv sessionClosedExample 4294967296).1 ≤ (INT_MAX : Int) ∧
    (SPDYF_tls_recv sessionClosedExample 4294967296).1 <
      ((4294967296 : Nat) : Int) ∧
    (SPDYF_tls_send sessionClosedExample [] 4294967296).1 ≤ (INT_MAX : Int) ∧
    (SPDYF_tls_send sessionClosedExample [] 4294967296).1 <
      ((4294967296 : Nat) : Int) ∧
    ((sizeTruncatedToInt 4294967296 = SPDY_TLS_ERROR_CLOSED ∨
        sizeTruncatedToInt 4294967296 = SPDY_TLS_ERROR_ERROR ∨
        sizeTruncatedToInt 4294967296 = SPDY_TLS_ERROR_AGAIN) →
      (0 < (SPDYF_tls_recv sessionClosedExample 4294967296).1 →
        (SPDYF_tls_recv sessionClosedExample 4294967296).1 ≠
          sizeTruncatedToInt 4294967296) ∧
      (0 < (SPDYF_tls_send sessionClosedExample [] 4294967296).1 →
        (SPDYF_tls_send sessionClosedExample [] 4294967296).1 ≠
          sizeTruncatedToInt 4294967296)) :=
  tls_int_return_caps_size sessionClosedExample [] 4294967296 (by decide)
